import Mathlib

/-!
Shallow embedding of the OTA update agent of the `orin-system-setup`
repository, together with theorems settling the frozen claims about it.

The embedding follows the Python sources:
* `src/OTA/ota/progress_reporter.py` — `ProgressReporter.send_progress_update`
* `src/OTA/ota/file_manager.py` — `FileManager.store_update_files`,
  `FileManager.load_latest_config`
* `src/OTA/ota/action_handlers.py` — `ActionHandlers.handle_upgrade_action`,
  `handle_stop_action`, `handle_start_action`, `apply_ota_update`
* `src/OTA/ota/docker_operations.py` — `DockerManager.stop_docker_services`,
  `DockerManager.pull_images_with_progress`
* `src/OTA/ota/ota.py` — `BaseOTA.ota_process`
* `src/OTA/utils/ws_client.py` — `WebSocketClient._send_messages`,
  `send_message`, `stop`

External effects (subprocess exit codes, `shutil.copy2` success, artifact
download results, transport send outcomes) are passed in as explicit boolean
or `Option` oracles; everything downstream of those outcomes is translated
from the source.
-/

namespace OrinOTA

/-- Truthiness test used by the Python code on optional string fields:
`data.get(k)` is `None` when absent, and both `None` and the empty string
are falsy under `if not x`. -/
def isFalsy : Option String → Bool
  | Option.none => true
  | Option.some s => s.isEmpty

/-- Model of Python `json.dumps(None)`: the JSON serialization of `None`
is the literal `null`. -/
def jsonDumpsNone : String := "null"

/-- The update dict built by `ProgressReporter.send_progress_update`
(`src/OTA/ota/progress_reporter.py`, lines 38-44) before it is serialized
and handed to `ws_client.send_message`. -/
structure ProgressUpdateData where
  type : String
  status : String
  message : String
  progress : Nat
  timestamp : String
deriving Repr, DecidableEq

/-- Model of `ProgressReporter.send_progress_update`
(`src/OTA/ota/progress_reporter.py`, lines 24-59): when a WebSocket client
is present and `is_connected()` holds, the update dict is built and sent;
otherwise only a warning is logged and nothing goes out. The result is the
dict handed to `send_message`, or `Option.none` when nothing was sent. -/
def sendProgressUpdate (hasClient connected : Bool) (status message : String)
    (progress : Nat) : Option ProgressUpdateData :=
  if hasClient && connected then
    Option.some
      { type := "ota_progress"
        status := status
        message := message
        progress := progress
        timestamp := jsonDumpsNone }
  else Option.none

/-- Per-service durable state owned by the `FileManager` updates directory:
the historical `<service>_<tag>.yaml` snapshots and the
`<service>_latest.yaml` pointer, each holding a manifest of type `M`. -/
structure StoreState (M : Type) where
  tagged : List (String × M)
  latest : Option M
deriving Repr, DecidableEq

/-- Result dict of `FileManager.store_update_files`
(`src/OTA/ota/file_manager.py`, lines 46-73). -/
structure StoreResult where
  success : Bool
  error : Option String
  versionPath : Option String
  latestPath : Option String
deriving Repr, DecidableEq

/-- Model of `FileManager.store_update_files`
(`src/OTA/ota/file_manager.py`, lines 26-73). The two `shutil.copy2` calls
execute in order inside one `try`: the tagged copy first, then the latest
copy; the first raising call aborts the rest and yields a failure dict.
`copyVersionOk` and `copyLatestOk` are the outcomes of the two copies. -/
def storeUpdateFiles (M : Type) (updatesDir serviceName tag : String)
    (st : StoreState M) (m : M) (copyVersionOk copyLatestOk : Bool) :
    StoreResult × StoreState M :=
  let versionPath := updatesDir ++ "/" ++ serviceName ++ "_" ++ tag ++ ".yaml"
  let latestPath := updatesDir ++ "/" ++ serviceName ++ "_latest.yaml"
  if copyVersionOk then
    let st1 : StoreState M := { st with tagged := st.tagged ++ [(tag, m)] }
    if copyLatestOk then
      ({ success := true, error := Option.none,
         versionPath := Option.some versionPath,
         latestPath := Option.some latestPath },
       { st1 with latest := Option.some m })
    else
      ({ success := false,
         error := Option.some "Failed to store OTA update file",
         versionPath := Option.none, latestPath := Option.none },
       st1)
  else
    ({ success := false,
       error := Option.some "Failed to store OTA update file",
       versionPath := Option.none, latestPath := Option.none },
     st)

/-- Model of `FileManager.load_latest_config`
(`src/OTA/ota/file_manager.py`, lines 75-118): succeeds with the content of
`<service>_latest.yaml` when that file exists, fails otherwise. -/
def loadLatestConfig (M : Type) (st : StoreState M) : Option M :=
  st.latest

/-- Container-level operations invoked by the orchestrator; used to state
that a code path touches no container. `stopServices` is a call to
`DockerManager.stop_docker_services`, `startServices` a call to
`DockerManager.start_docker_services` (whose first step pulls images). -/
inductive ContainerOp where
  | stopServices
  | startServices
deriving Repr, DecidableEq

/-- Success oracles for the stages of `ActionHandlers.apply_ota_update`:
whether `stop_docker_services` reports success, whether each of the two
`shutil.copy2` calls inside `store_update_files` succeeds, and whether
`start_docker_services` reports success. -/
structure PipelineEnv where
  stopOk : Bool
  copyVersionOk : Bool
  copyLatestOk : Bool
  startOk : Bool
deriving Repr, DecidableEq

/-- Observable outcome of one `apply_ota_update` run: its boolean return
value, the `(status, progress)` pairs of every `send_progress_update` call
in order, the container operations invoked in order, and the resulting
durable store state. -/
structure ApplyResult (M : Type) where
  ret : Bool
  updates : List (String × Nat)
  ops : List ContainerOp
  state : StoreState M
deriving Repr, DecidableEq

/-- Model of `ActionHandlers.apply_ota_update`
(`src/OTA/ota/action_handlers.py`, lines 178-248): emit `starting`/0 and
`stopping`/10, stop services (failure emits `error`/10 and returns);
emit `storing`/20 and store the files (failure emits `error`/20 and
returns, before any start); start services (failure emits `error`/80 and
returns); on success emit `completed`/100. -/
def applyOtaUpdate (M : Type) (updatesDir serviceName tag : String)
    (env : PipelineEnv) (st : StoreState M) (m : M) : ApplyResult M :=
  let u0 : List (String × Nat) := [("starting", 0), ("stopping", 10)]
  if env.stopOk then
    let u1 := u0 ++ [("storing", 20)]
    let (storeRes, st1) :=
      storeUpdateFiles M updatesDir serviceName tag st m
        env.copyVersionOk env.copyLatestOk
    if storeRes.success then
      if env.startOk then
        { ret := true, updates := u1 ++ [("completed", 100)],
          ops := [ContainerOp.stopServices, ContainerOp.startServices],
          state := st1 }
      else
        { ret := false, updates := u1 ++ [("error", 80)],
          ops := [ContainerOp.stopServices, ContainerOp.startServices],
          state := st1 }
    else
      { ret := false, updates := u1 ++ [("error", 20)],
        ops := [ContainerOp.stopServices], state := st1 }
  else
    { ret := false, updates := u0 ++ [("error", 10)],
      ops := [ContainerOp.stopServices], state := st }

/-- Parsed command message fields, as read by `BaseOTA.ota_process` and the
action handlers via `data.get(...)`: every field may be absent. -/
structure CommandData (M : Type) where
  action : Option String
  serviceName : Option String
  tag : Option String
  s3Url : Option String
  checksum : Option String
  containerName : Option String
  yamlContent : Option M

/-- Outcome of one handler or dispatch run: progress-update calls in order,
container operations in order, and the resulting durable store state. -/
structure HandlerResult (M : Type) where
  updates : List (String × Nat)
  ops : List ContainerOp
  state : StoreState M

/-- Model of `ActionHandlers.handle_upgrade_action`
(`src/OTA/ota/action_handlers.py`, lines 36-84): missing `tag`, `s3_url` or
`checksum` emits `error`/0 and returns; otherwise the artifact is
downloaded and checksum-verified (`download` is the oracle for
`S3FileDownloader.download_and_verify_yaml`, `Option.none` covering any
falsy content or path); a failed download emits `download_error`/0 and
returns without touching containers; a successful one runs
`apply_ota_update` and then cleans up the temporary file. -/
def handleUpgradeAction (M : Type) (updatesDir serviceName : String)
    (data : CommandData M) (download : Option (M × String))
    (env : PipelineEnv) (st : StoreState M) : HandlerResult M :=
  if isFalsy data.tag || isFalsy data.s3Url || isFalsy data.checksum then
    { updates := [("error", 0)], ops := [], state := st }
  else
    match download with
    | Option.some (m, _localPath) =>
        let r := applyOtaUpdate M updatesDir serviceName (data.tag.getD "") env st m
        { updates := r.updates, ops := r.ops, state := r.state }
    | Option.none =>
        { updates := [("download_error", 0)], ops := [], state := st }

/-- Outcome oracles for the docker commands run per container by
`DockerManager.stop_docker_services` (`src/OTA/ota/docker_operations.py`,
lines 41-209). Each field is the success of the named subprocess call
(exit code 0; for the two `docker ps` checks, additionally a non-empty
stdout). `presentStopped` and `removeStoppedOk` belong to the branch for a
container that exists but is not running; that branch force-removes the
container and only logs the result. `raises` covers the per-container
`except subprocess.TimeoutExpired` / `except Exception` handlers (lines
186-191): whether some subprocess call for this container raises instead
of returning, aborting the rest of the escalation. -/
structure ContainerEnv where
  running : Bool
  stopOk : Bool
  removeOk : Bool
  forceRemoveOk : Bool
  killOk : Bool
  removeAfterKillOk : Bool
  presentStopped : Bool
  removeStoppedOk : Bool
  raises : Bool
deriving Repr, DecidableEq

/-- One service entry of the manifest's `services` mapping as consumed by
`stop_docker_services`: the service name, the optional
`container_name` of its config, and the command oracles. -/
structure ServiceEntry where
  serviceName : String
  containerName : Option String
  env : ContainerEnv
deriving Repr, DecidableEq

/-- The container name resolved by
`service_config.get("container_name", service_name)`. -/
def ServiceEntry.resolvedName (e : ServiceEntry) : String :=
  e.containerName.getD e.serviceName

/-- The name the per-container loop appends to `failed_services` when this
container fails: the `except` handlers
(`src/OTA/ota/docker_operations.py`, lines 186-191) append the service key
`service_name`, while the command-failure branches (lines 109, 144, 149)
append the resolved `container_name`. -/
def ServiceEntry.failedRecordName (e : ServiceEntry) : String :=
  if e.env.raises then e.serviceName else e.resolvedName

/-- How one container fares in the per-container loop of
`stop_docker_services`: appended to `stopped_services`, appended to
`failed_services`, or (for a container that is not running) recorded in
neither list. -/
inductive ContainerOutcome where
  | stopped (name : String)
  | failed (name : String)
  | skipped
deriving Repr, DecidableEq

/-- Whether the outcome lands in `failed_services`. -/
def ContainerOutcome.isFailed : ContainerOutcome → Bool
  | ContainerOutcome.failed _ => true
  | _ => false

/-- Whether the outcome lands in `stopped_services`. -/
def ContainerOutcome.isStopped : ContainerOutcome → Bool
  | ContainerOutcome.stopped _ => true
  | _ => false

/-- The processing applied to one container by `stop_docker_services`
(`src/OTA/ota/docker_operations.py`, lines 51-191). If any subprocess call
raises (`TimeoutExpired` or any other exception, lines 186-191), the rest
of the escalation is skipped and the service key `service_name` is
appended to `failed_services`; the raise preempts every append to
`stopped_services`, since those are the final statements of their
branches, so a single oracle bit captures a raise at any call site.
Otherwise the escalation runs: if the container is running, `docker stop`
it; on success `docker rm`, retrying with `docker rm -f` if that fails;
if the graceful stop fails, `docker kill` and then `docker rm -f`. A
container that is not running is never added to either list (the
present-but-stopped branch force-removes it but only logs the result). -/
def stopOneContainer (e : ServiceEntry) : ContainerOutcome :=
  let name := e.resolvedName
  if e.env.raises then ContainerOutcome.failed e.serviceName
  else if e.env.running then
    if e.env.stopOk then
      if e.env.removeOk then ContainerOutcome.stopped name
      else if e.env.forceRemoveOk then ContainerOutcome.stopped name
      else ContainerOutcome.failed name
    else
      if e.env.killOk then
        if e.env.removeAfterKillOk then ContainerOutcome.stopped name
        else ContainerOutcome.failed name
      else ContainerOutcome.failed name
  else ContainerOutcome.skipped

/-- Result dict of `stop_docker_services`: the success flag, the `error`
string when present, and the `stopped`/`failed` name lists. -/
structure StopServicesResult where
  success : Bool
  error : Option String
  message : Option String
  stopped : List String
  failed : List String
deriving Repr, DecidableEq

/-- The `stopped_services` list accumulated by the per-container loop of
`stop_docker_services`, in iteration order. -/
def stoppedNames (services : List ServiceEntry) : List String :=
  (services.map stopOneContainer).filterMap fun o =>
    match o with
    | ContainerOutcome.stopped n => Option.some n
    | _ => Option.none

/-- The `failed_services` list accumulated by the per-container loop of
`stop_docker_services`, in iteration order. -/
def failedNames (services : List ServiceEntry) : List String :=
  (services.map stopOneContainer).filterMap fun o =>
    match o with
    | ContainerOutcome.failed n => Option.some n
    | _ => Option.none

/-- Model of `DockerManager.stop_docker_services`
(`src/OTA/ota/docker_operations.py`, lines 27-209): an empty `services`
mapping succeeds immediately; otherwise each container is processed in
order by the escalation above, collecting `stopped_services` and
`failed_services`; the call fails exactly when `failed_services` is
non-empty, with an error message joining all failed names. -/
def stopDockerServices (services : List ServiceEntry) : StopServicesResult :=
  if services.isEmpty then
    { success := true, error := Option.none,
      message := Option.some "No services to stop",
      stopped := [], failed := [] }
  else
    if (failedNames services).isEmpty then
      { success := true, error := Option.none,
        message := Option.some
          ("Successfully stopped " ++ toString (stoppedNames services).length ++
            " services"),
        stopped := stoppedNames services, failed := failedNames services }
    else
      { success := false,
        error := Option.some
          ("Failed to stop services: " ++
            String.intercalate ", " (failedNames services)),
        message := Option.none,
        stopped := stoppedNames services, failed := failedNames services }

/-- A line of `docker-compose pull` output after the classification done by
`DockerManager.pull_images_with_progress`
(`src/OTA/ota/docker_operations.py`, lines 254-314): a recognized
`Pulling <service>` header, a `<layer> Pull complete` line, a
`<layer> Downloading cur/total` line, a `<layer> Extracting` line, or any
line matching none of the patterns (which emits nothing and changes no
state). -/
inductive PullLine where
  | pulling (service : String)
  | pullComplete (layer : String)
  | downloading (layer cur tot : String)
  | extracting (layer : String)
  | other
deriving Repr, DecidableEq

/-- Python `set.add`: insert when absent, keep otherwise. Only the size of
the set matters for the emitted percents. -/
def setAdd (l : List String) (x : String) : List String :=
  if x ∈ l then l else l ++ [x]

/-- Mutable state of the line loop in `pull_images_with_progress`:
`services_found`, `services_pulled` (never written to by this function),
`_completed_layers`, and `current_service`. -/
structure PullState where
  servicesFound : List String
  servicesPulled : List String
  completedLayers : List String
  currentService : Option String
deriving Repr, DecidableEq

/-- Initial state at the top of `pull_images_with_progress`: all sets
empty, `current_service = None` (`self._completed_layers = set()` is reset
on entry). -/
def initPullState : PullState :=
  { servicesFound := [], servicesPulled := [], completedLayers := [],
    currentService := Option.none }

/-- One iteration of the line loop of `pull_images_with_progress`
(`src/OTA/ota/docker_operations.py`, lines 254-314), returning the new
state and the `(status, percent)` of the progress update emitted for the
line, if any. The arithmetic is copied from the source; Python `//` on
non-negative operands is `Nat` division, and `len(x) or 1` is the length
when positive, else `1`. -/
def pullStep (st : PullState) : PullLine → PullState × Option (String × Nat)
  | PullLine.pulling service =>
      let found := setAdd st.servicesFound service
      let progress := 30 + st.servicesPulled.length * 40 / max found.length 1
      ({ st with servicesFound := found,
                 currentService := Option.some service },
       Option.some ("pulling_service", progress))
  | PullLine.pullComplete layer =>
      let layers := setAdd st.completedLayers layer
      let progress := 30 + min (layers.length * 5) 40
      ({ st with completedLayers := layers },
       Option.some ("layer_complete", progress))
  | PullLine.downloading _layer _cur _tot =>
      let denom := max (if st.servicesFound.length = 0 then 1
                        else st.servicesFound.length) 1
      let progress := 35 + st.servicesPulled.length * 35 / denom
      (st, Option.some ("downloading", progress))
  | PullLine.extracting _layer =>
      let denom := max (if st.servicesFound.length = 0 then 1
                        else st.servicesFound.length) 1
      let progress := 50 + st.servicesPulled.length * 20 / denom
      (st, Option.some ("extracting", progress))
  | PullLine.other => (st, Option.none)

/-- Run the line loop from a given state over a list of classified lines,
collecting the emitted `(status, percent)` updates in order. -/
def pullRunFrom (st : PullState) : List PullLine → List (String × Nat)
  | [] => []
  | l :: ls =>
      let (st1, ev) := pullStep st l
      match ev with
      | Option.some e => e :: pullRunFrom st1 ls
      | Option.none => pullRunFrom st1 ls

/-- The progress updates emitted by one `pull_images_with_progress` call
over a given sequence of output lines. -/
def pullRun (lines : List PullLine) : List (String × Nat) :=
  pullRunFrom initPullState lines

/-- Model of `ActionHandlers.handle_stop_action`
(`src/OTA/ota/action_handlers.py`, lines 86-126): emit `stopping`/10,
build a one-service config whose `container_name` is
`data.get("container_name", service_name)`, call `stop_docker_services`;
success emits `completed`/100, failure emits `error`/10. -/
def handleStopAction (M : Type) (data : CommandData M) (serviceName : String)
    (cenv : ContainerEnv) (st : StoreState M) : HandlerResult M :=
  let entry : ServiceEntry :=
    { serviceName := serviceName
      containerName := Option.some (data.containerName.getD serviceName)
      env := cenv }
  let r := stopDockerServices [entry]
  if r.success then
    { updates := [("stopping", 10), ("completed", 100)],
      ops := [ContainerOp.stopServices], state := st }
  else
    { updates := [("stopping", 10), ("error", 10)],
      ops := [ContainerOp.stopServices], state := st }

/-- Model of `ActionHandlers.handle_start_action`
(`src/OTA/ota/action_handlers.py`, lines 128-176): emit `starting`/10;
with no inline `yaml_content`, load the stored latest config; when none
exists, emit `error`/10 and return without any container operation;
otherwise call `start_docker_services` (success oracle `startOk`),
emitting `completed`/100 or `error`/80. -/
def handleStartAction (M : Type) (data : CommandData M) (startOk : Bool)
    (st : StoreState M) : HandlerResult M :=
  let content :=
    match data.yamlContent with
    | Option.some m => Option.some m
    | Option.none => loadLatestConfig M st
  match content with
  | Option.none =>
      { updates := [("starting", 10), ("error", 10)], ops := [], state := st }
  | Option.some _ =>
      if startOk then
        { updates := [("starting", 10), ("completed", 100)],
          ops := [ContainerOp.startServices], state := st }
      else
        { updates := [("starting", 10), ("error", 80)],
          ops := [ContainerOp.startServices], state := st }

/-- An inbound control-channel message as seen by `BaseOTA.ota_process`:
a non-string payload, a string that fails `json.loads`, or a parsed JSON
object with its optional fields. -/
inductive InboundMessage (M : Type) where
  | notString
  | invalidJson
  | parsed (data : CommandData M)

/-- Model of `BaseOTA.ota_process` (`src/OTA/ota/ota.py`, lines 64-121):
a non-string message emits `error_message`/0; a JSON decode failure emits
`decode_error`/0; a parsed message missing `action` or `service_name` only
logs an error and returns (no progress update, no container operation);
otherwise the action routes to the upgrade/stop/start handler, and an
unrecognized action emits `error`/0. Oracles: `download` for the artifact
fetch, `env` for the upgrade pipeline stages, `cenv` for the stop action's
container commands, `startOk` for the start action. -/
def otaProcess (M : Type) (updatesDir : String) (msg : InboundMessage M)
    (download : Option (M × String)) (env : PipelineEnv)
    (cenv : ContainerEnv) (startOk : Bool) (st : StoreState M) :
    HandlerResult M :=
  match msg with
  | InboundMessage.notString =>
      { updates := [("error_message", 0)], ops := [], state := st }
  | InboundMessage.invalidJson =>
      { updates := [("decode_error", 0)], ops := [], state := st }
  | InboundMessage.parsed data =>
      if isFalsy data.action then { updates := [], ops := [], state := st }
      else if isFalsy data.serviceName then
        { updates := [], ops := [], state := st }
      else
        let serviceName := data.serviceName.getD ""
        let action := data.action.getD ""
        if action = "upgrade" then
          handleUpgradeAction M updatesDir serviceName data download env st
        else if action = "stop" then
          handleStopAction M data serviceName cenv st
        else if action = "start" then
          handleStartAction M data startOk st
        else
          { updates := [("error", 0)], ops := [], state := st }

/-- State shared by the `WebSocketClient` loops
(`src/OTA/utils/ws_client.py`): the `running` and `connected` flags and
the FIFO outbound `message_queue` (front of the list is the next message
`Queue.get` returns; `Queue.put` appends at the back). -/
structure ClientState where
  running : Bool
  connected : Bool
  queue : List String
deriving Repr, DecidableEq

/-- Inputs driving the outbound machinery: one iteration of the
`_send_messages` loop whose transport `send` succeeds or raises a
connection error, or the supervisor loop `_run_client` re-establishing the
connection. -/
inductive SenderInput where
  | attempt (sendOk : Bool)
  | reconnect
deriving Repr, DecidableEq

/-- One iteration of `WebSocketClient._send_messages`
(`src/OTA/utils/ws_client.py`, lines 83-111): when running and connected,
pop the front message and send it; a raised connection error sets
`connected = False` and re-enqueues the in-flight message with
`self.message_queue.put(message)`, which appends it at the BACK of the
queue. When not connected (or the queue is empty) the iteration idles.
Returns the new state and the message delivered to the transport, if
any. -/
def senderStep (st : ClientState) (sendOk : Bool) :
    ClientState × Option String :=
  if st.running then
    if st.connected then
      match st.queue with
      | [] => (st, Option.none)
      | m :: rest =>
          if sendOk then ({ st with queue := rest }, Option.some m)
          else ({ st with connected := false, queue := rest ++ [m] },
                Option.none)
    else (st, Option.none)
  else (st, Option.none)

/-- The supervisor loop `_run_client` re-establishing a connection
(`src/OTA/utils/ws_client.py`, lines 126-127 via 182-190): sets
`connected = True`; the queue is untouched. -/
def reconnectStep (st : ClientState) : ClientState :=
  if st.running && !st.connected then { st with connected := true } else st

/-- Run the outbound machinery over a sequence of inputs, collecting the
messages accepted by the transport in delivery order. -/
def senderRun (st : ClientState) : List SenderInput → ClientState × List String
  | [] => (st, [])
  | SenderInput.attempt ok :: rest =>
      let (st1, sent) := senderStep st ok
      let (st2, delivered) := senderRun st1 rest
      match sent with
      | Option.some m => (st2, m :: delivered)
      | Option.none => (st2, delivered)
  | SenderInput.reconnect :: rest =>
      senderRun (reconnectStep st) rest

/-- Model of `WebSocketClient.send_message`
(`src/OTA/utils/ws_client.py`, lines 148-162): the message is enqueued
(at the back) only when the client is both connected and running;
otherwise a warning is logged and the message is not queued. -/
def sendMessage (st : ClientState) (m : String) : ClientState :=
  if st.connected && st.running then { st with queue := st.queue ++ [m] }
  else st

/-- Model of `WebSocketClient.stop` (`src/OTA/utils/ws_client.py`, lines
203-234): clear `running` and `connected`, close the websocket, then drain
the queue with `get_nowait` until `Empty`, discarding every queued
message. The second component is the list of messages delivered to the
transport during shutdown, which is always empty: no send is attempted. -/
def stopClient (_st : ClientState) : ClientState × List String :=
  ({ running := false, connected := false, queue := [] }, [])

/-- Concrete oracle instantiation: a container for which every docker
command fails and both `docker ps` checks come back empty. -/
def noopContainerEnv : ContainerEnv :=
  { running := false, stopOk := false, removeOk := false,
    forceRemoveOk := false, killOk := false, removeAfterKillOk := false,
    presentStopped := false, removeStoppedOk := false, raises := false }

/-- Concrete instantiation: a running container named `bc` whose graceful
stop, kill and removals all fail, so its escalation fails. -/
def entryFailB : ServiceEntry :=
  { serviceName := "b", containerName := Option.some "bc",
    env := { noopContainerEnv with running := true } }

/-- Concrete instantiation: a container that is neither running nor
present. -/
def entryAbsentA : ServiceEntry :=
  { serviceName := "a", containerName := Option.none,
    env := noopContainerEnv }

/-- Concrete instantiation: a container whose processing raises (for
example a `docker stop` timeout) and whose configured `container_name`
`bc` differs from its service key `b`. -/
def entryTimeoutB : ServiceEntry :=
  { serviceName := "b", containerName := Option.some "bc",
    env := { noopContainerEnv with raises := true } }

/-- Concrete instantiation: eight distinct completed layers followed by a
`Pulling web` header, as `pull_images_with_progress` would classify them. -/
def pullTrace8 : List PullLine :=
  [PullLine.pullComplete "a1", PullLine.pullComplete "a2",
   PullLine.pullComplete "a3", PullLine.pullComplete "a4",
   PullLine.pullComplete "a5", PullLine.pullComplete "a6",
   PullLine.pullComplete "a7", PullLine.pullComplete "a8",
   PullLine.pulling "web"]

/-- C10: every progress update emitted through the Progress Reporter is an
`ota_progress` message carrying exactly the given status, message and
progress, and its timestamp field is always the constant four-character
string `null`, the JSON serialization of `None`, never a time value. -/
theorem progress_update_wire_format (hasClient connected : Bool)
    (status message : String) (progress : Nat) (d : ProgressUpdateData)
    (h : sendProgressUpdate hasClient connected status message progress =
      Option.some d) :
    d.type = "ota_progress" ∧ d.status = status ∧ d.message = message ∧
      d.progress = progress ∧ d.timestamp = "null" ∧ d.timestamp.length = 4 := by
  unfold sendProgressUpdate at h
  by_cases hc : (hasClient && connected) = true
  · rw [if_pos hc] at h
    cases h
    exact ⟨rfl, rfl, rfl, rfl, rfl, rfl⟩
  · rw [if_neg hc] at h
    exact absurd h (by simp)

/-- Witness for C10 at a concrete emitted update. -/
theorem progress_update_wire_format_witness :
    ({ type := "ota_progress", status := "storing",
       message := "Storing update files", progress := 20,
       timestamp := "null" } : ProgressUpdateData).type = "ota_progress" ∧
    ({ type := "ota_progress", status := "storing",
       message := "Storing update files", progress := 20,
       timestamp := "null" } : ProgressUpdateData).status = "storing" ∧
    ({ type := "ota_progress", status := "storing",
       message := "Storing update files", progress := 20,
       timestamp := "null" } : ProgressUpdateData).message =
      "Storing update files" ∧
    ({ type := "ota_progress", status := "storing",
       message := "Storing update files", progress := 20,
       timestamp := "null" } : ProgressUpdateData).progress = 20 ∧
    ({ type := "ota_progress", status := "storing",
       message := "Storing update files", progress := 20,
       timestamp := "null" } : ProgressUpdateData).timestamp = "null" ∧
    ({ type := "ota_progress", status := "storing",
       message := "Storing update files", progress := 20,
       timestamp := "null" } : ProgressUpdateData).timestamp.length = 4 :=
  progress_update_wire_format true true "storing" "Storing update files" 20 _
    rfl

/-- C2: for every Upgrade command whose artifact download or checksum
verification fails (the downloader yields no content or no local path),
the handler emits a `download_error` progress update and returns without
invoking any container operation. -/
theorem upgrade_download_failure_no_container_ops (M : Type)
    (updatesDir serviceName : String) (data : CommandData M)
    (env : PipelineEnv) (st : StoreState M)
    (htag : isFalsy data.tag = false) (hurl : isFalsy data.s3Url = false)
    (hsum : isFalsy data.checksum = false) :
    (handleUpgradeAction M updatesDir serviceName data Option.none env
      st).updates = [("download_error", 0)] ∧
    (handleUpgradeAction M updatesDir serviceName data Option.none env
      st).ops = [] ∧
    (handleUpgradeAction M updatesDir serviceName data Option.none env
      st).state = st := by
  unfold handleUpgradeAction
  simp [htag, hurl, hsum]

/-- Witness for C2 at a concrete well-formed Upgrade command whose
download fails. -/
theorem upgrade_download_failure_no_container_ops_witness :
    isFalsy (Option.some "v1") = false ∧
    ((handleUpgradeAction String ".ota" "svc"
        { action := Option.some "upgrade", serviceName := Option.some "svc",
          tag := Option.some "v1", s3Url := Option.some "https://x/y.yaml",
          checksum := Option.some "abcd", containerName := Option.none,
          yamlContent := Option.none }
        Option.none
        { stopOk := true, copyVersionOk := true, copyLatestOk := true,
          startOk := true }
        { tagged := [], latest := Option.none }).updates =
      [("download_error", 0)] ∧
     (handleUpgradeAction String ".ota" "svc"
        { action := Option.some "upgrade", serviceName := Option.some "svc",
          tag := Option.some "v1", s3Url := Option.some "https://x/y.yaml",
          checksum := Option.some "abcd", containerName := Option.none,
          yamlContent := Option.none }
        Option.none
        { stopOk := true, copyVersionOk := true, copyLatestOk := true,
          startOk := true }
        { tagged := [], latest := Option.none }).ops = [] ∧
     (handleUpgradeAction String ".ota" "svc"
        { action := Option.some "upgrade", serviceName := Option.some "svc",
          tag := Option.some "v1", s3Url := Option.some "https://x/y.yaml",
          checksum := Option.some "abcd", containerName := Option.none,
          yamlContent := Option.none }
        Option.none
        { stopOk := true, copyVersionOk := true, copyLatestOk := true,
          startOk := true }
        { tagged := [], latest := Option.none }).state =
      { tagged := [], latest := Option.none }) :=
  ⟨by decide,
   upgrade_download_failure_no_container_ops String ".ota" "svc" _ _ _
     (by decide) (by decide) (by decide)⟩

/-- C8: a partial copy in which the tagged copy succeeds but the latest
copy fails is reported as a failure, and the orchestrator does not advance
past the Storing stage: the run returns `False` and never calls
`start_docker_services`. -/
theorem store_partial_copy_reported_failure (M : Type)
    (updatesDir serviceName tag : String) (st : StoreState M) (m : M)
    (env : PipelineEnv) (hv : env.copyVersionOk = true)
    (hl : env.copyLatestOk = false) :
    (storeUpdateFiles M updatesDir serviceName tag st m env.copyVersionOk
      env.copyLatestOk).1.success = false ∧
    (applyOtaUpdate M updatesDir serviceName tag env st m).ret = false ∧
    ContainerOp.startServices ∉
      (applyOtaUpdate M updatesDir serviceName tag env st m).ops := by
  rcases env with ⟨so, cv, cl, sk⟩
  simp only at hv hl
  subst hv; subst hl
  cases so <;> simp [applyOtaUpdate, storeUpdateFiles]

/-- Witness for C8 at a concrete partial-copy run. -/
theorem store_partial_copy_reported_failure_witness :
    ({ stopOk := true, copyVersionOk := true, copyLatestOk := false,
       startOk := true } : PipelineEnv).copyVersionOk = true ∧
    ((storeUpdateFiles String ".ota" "svc" "v1"
        { tagged := [], latest := Option.none } "manifest"
        ({ stopOk := true, copyVersionOk := true, copyLatestOk := false,
           startOk := true } : PipelineEnv).copyVersionOk
        ({ stopOk := true, copyVersionOk := true, copyLatestOk := false,
           startOk := true } : PipelineEnv).copyLatestOk).1.success = false ∧
     (applyOtaUpdate String ".ota" "svc" "v1"
        { stopOk := true, copyVersionOk := true, copyLatestOk := false,
          startOk := true }
        { tagged := [], latest := Option.none } "manifest").ret = false ∧
     ContainerOp.startServices ∉
       (applyOtaUpdate String ".ota" "svc" "v1"
          { stopOk := true, copyVersionOk := true, copyLatestOk := false,
            startOk := true }
          { tagged := [], latest := Option.none } "manifest").ops) :=
  ⟨rfl,
   store_partial_copy_reported_failure String ".ota" "svc" "v1"
     { tagged := [], latest := Option.none } "manifest"
     { stopOk := true, copyVersionOk := true, copyLatestOk := false,
       startOk := true } rfl rfl⟩

/-- C1 counterexample: a run in which stopping and storing succeed but
`start_docker_services` fails leaves the `latest` pointer on the manifest
whose apply failed mid-pipeline, not on the previously applied
`manifest-v1`. -/
theorem latest_overwritten_by_failed_start :
    (applyOtaUpdate String ".ota" "svc" "v2"
      { stopOk := true, copyVersionOk := true, copyLatestOk := true,
        startOk := false }
      { tagged := [("v1", "manifest-v1")], latest := Option.some "manifest-v1" }
      "manifest-v2").ret = false ∧
    (applyOtaUpdate String ".ota" "svc" "v2"
      { stopOk := true, copyVersionOk := true, copyLatestOk := true,
        startOk := false }
      { tagged := [("v1", "manifest-v1")], latest := Option.some "manifest-v1" }
      "manifest-v2").state.latest = Option.some "manifest-v2" ∧
    (applyOtaUpdate String ".ota" "svc" "v2"
      { stopOk := true, copyVersionOk := true, copyLatestOk := true,
        startOk := false }
      { tagged := [("v1", "manifest-v1")], latest := Option.some "manifest-v1" }
      "manifest-v2").state.latest ≠ Option.some "manifest-v1" := by
  refine ⟨rfl, rfl, ?_⟩
  decide

/-- C1 amended: the `latest` pointer tracks the most recently successfully
*stored* manifest, not the most recently successfully applied one: it is
unchanged exactly when a stage at or before Storing fails, and it is set
to the new manifest as soon as both copies of the Storing stage succeed,
even if `start_docker_services` fails afterwards. -/
theorem latest_tracks_successful_storing (M : Type)
    (updatesDir serviceName tag : String) (env : PipelineEnv)
    (st : StoreState M) (m : M) :
    (applyOtaUpdate M updatesDir serviceName tag env st m).state.latest =
      if env.stopOk && (env.copyVersionOk && env.copyLatestOk) then
        Option.some m
      else st.latest := by
  rcases env with ⟨so, cv, cl, sk⟩
  cases so <;> cases cv <;> cases cl <;> cases sk <;>
    simp [applyOtaUpdate, storeUpdateFiles]

/-- C3 counterexample: a JSON message carrying `service_name` but no
`action` produces zero progress updates, not exactly one validation-class
update. -/
theorem missing_action_emits_no_update :
    (otaProcess String ".ota"
      (InboundMessage.parsed
        { action := Option.none, serviceName := Option.some "svc",
          tag := Option.none, s3Url := Option.none, checksum := Option.none,
          containerName := Option.none, yamlContent := Option.none })
      Option.none
      { stopOk := true, copyVersionOk := true, copyLatestOk := true,
        startOk := true }
      { running := false, stopOk := false, removeOk := false,
        forceRemoveOk := false, killOk := false, removeAfterKillOk := false,
        presentStopped := false, removeStoppedOk := false, raises := false }
      true { tagged := [], latest := Option.none }).updates = [] ∧
    ¬((otaProcess String ".ota"
        (InboundMessage.parsed
          { action := Option.none, serviceName := Option.some "svc",
            tag := Option.none, s3Url := Option.none, checksum := Option.none,
            containerName := Option.none, yamlContent := Option.none })
        Option.none
        { stopOk := true, copyVersionOk := true, copyLatestOk := true,
          startOk := true }
        { running := false, stopOk := false, removeOk := false,
          forceRemoveOk := false, killOk := false,
          removeAfterKillOk := false, presentStopped := false,
          removeStoppedOk := false, raises := false }
        true { tagged := [], latest := Option.none }).updates.length = 1) := by
  exact ⟨rfl, by decide⟩

/-- C3 amended: for every parsed message missing `action` or missing
`service_name`, dispatch only logs the error and returns: it emits no
progress update, performs no container operation and leaves the store
state unchanged. -/
theorem missing_field_logs_and_returns (M : Type) (updatesDir : String)
    (data : CommandData M) (download : Option (M × String))
    (env : PipelineEnv) (cenv : ContainerEnv) (startOk : Bool)
    (st : StoreState M)
    (h : isFalsy data.action = true ∨ isFalsy data.serviceName = true) :
    (otaProcess M updatesDir (InboundMessage.parsed data) download env cenv
      startOk st).updates = [] ∧
    (otaProcess M updatesDir (InboundMessage.parsed data) download env cenv
      startOk st).ops = [] ∧
    (otaProcess M updatesDir (InboundMessage.parsed data) download env cenv
      startOk st).state = st := by
  unfold otaProcess
  by_cases ha : isFalsy data.action = true
  · simp [ha]
  · rcases h with h | h
    · exact absurd h ha
    · simp [Bool.not_eq_true] at ha
      simp [ha, h]

/-- Witness for C3 amended at a concrete message missing `action`. -/
theorem missing_field_logs_and_returns_witness :
    (isFalsy (Option.some "upgrade") = true ∨
      isFalsy (Option.none : Option String) = true) ∧
    ((otaProcess String ".ota"
        (InboundMessage.parsed
          { action := Option.some "upgrade", serviceName := Option.none,
            tag := Option.some "v1", s3Url := Option.some "u",
            checksum := Option.some "c", containerName := Option.none,
            yamlContent := Option.none })
        Option.none
        { stopOk := true, copyVersionOk := true, copyLatestOk := true,
          startOk := true }
        { running := false, stopOk := false, removeOk := false,
          forceRemoveOk := false, killOk := false,
          removeAfterKillOk := false, presentStopped := false,
          removeStoppedOk := false, raises := false }
        true { tagged := [], latest := Option.none }).updates = [] ∧
     (otaProcess String ".ota"
        (InboundMessage.parsed
          { action := Option.some "upgrade", serviceName := Option.none,
            tag := Option.some "v1", s3Url := Option.some "u",
            checksum := Option.some "c", containerName := Option.none,
            yamlContent := Option.none })
        Option.none
        { stopOk := true, copyVersionOk := true, copyLatestOk := true,
          startOk := true }
        { running := false, stopOk := false, removeOk := false,
          forceRemoveOk := false, killOk := false,
          removeAfterKillOk := false, presentStopped := false,
          removeStoppedOk := false, raises := false }
        true { tagged := [], latest := Option.none }).ops = [] ∧
     (otaProcess String ".ota"
        (InboundMessage.parsed
          { action := Option.some "upgrade", serviceName := Option.none,
            tag := Option.some "v1", s3Url := Option.some "u",
            checksum := Option.some "c", containerName := Option.none,
            yamlContent := Option.none })
        Option.none
        { stopOk := true, copyVersionOk := true, copyLatestOk := true,
          startOk := true }
        { running := false, stopOk := false, removeOk := false,
          forceRemoveOk := false, killOk := false,
          removeAfterKillOk := false, presentStopped := false,
          removeStoppedOk := false, raises := false }
        true { tagged := [], latest := Option.none }).state =
      { tagged := [], latest := Option.none }) :=
  ⟨Or.inr (by decide),
   missing_field_logs_and_returns String ".ota" _ Option.none _ _ true _
     (Or.inr (by decide))⟩

theorem stopOneContainer_failed_extract (e : ServiceEntry) :
    (match stopOneContainer e with
      | ContainerOutcome.failed n => Option.some n
      | _ => Option.none) =
      if (stopOneContainer e).isFailed then
        Option.some e.failedRecordName
      else Option.none := by
  unfold stopOneContainer ServiceEntry.failedRecordName
  split_ifs <;> simp_all [ContainerOutcome.isFailed]

theorem stopOneContainer_stopped_extract (e : ServiceEntry) :
    (match stopOneContainer e with
      | ContainerOutcome.stopped n => Option.some n
      | _ => Option.none) =
      if (stopOneContainer e).isStopped then
        Option.some e.resolvedName
      else Option.none := by
  unfold stopOneContainer
  split_ifs <;> simp_all [ContainerOutcome.isStopped]

theorem filterMap_ite_eq_filter_map {α β : Type} (p : α → Bool) (f : α → β) :
    ∀ l : List α,
      (l.filterMap fun a =>
        if p a then Option.some (f a) else Option.none) = (l.filter p).map f
  | [] => rfl
  | a :: t => by
    by_cases h : p a <;>
      simp [List.filterMap_cons, List.filter_cons, h,
        filterMap_ite_eq_filter_map p f t]

theorem failedNames_eq (services : List ServiceEntry) :
    failedNames services =
      (services.filter fun e => (stopOneContainer e).isFailed).map
        ServiceEntry.failedRecordName := by
  unfold failedNames
  rw [List.filterMap_map, ← filterMap_ite_eq_filter_map]
  exact List.filterMap_congr fun e _ => stopOneContainer_failed_extract e

theorem stoppedNames_eq (services : List ServiceEntry) :
    stoppedNames services =
      (services.filter fun e => (stopOneContainer e).isStopped).map
        ServiceEntry.resolvedName := by
  unfold stoppedNames
  rw [List.filterMap_map, ← filterMap_ite_eq_filter_map]
  exact List.filterMap_congr fun e _ => stopOneContainer_stopped_extract e

theorem failedNames_eq_nil_iff (services : List ServiceEntry) :
    failedNames services = [] ↔
      ∀ e ∈ services, (stopOneContainer e).isFailed = false := by
  rw [failedNames_eq, List.map_eq_nil_iff, List.filter_eq_nil_iff]
  simp [Bool.not_eq_true]

/-- C7 counterexample: a container whose processing raises (for example a
stop timeout) and whose `container_name` `bc` differs from its service
key `b` is recorded in `failed_services` — and hence enumerated in the
error message — under the service key `b`, not under its container name,
so the failure message does not enumerate all failed container names. -/
theorem timeout_failure_records_service_key :
    (stopDockerServices [entryTimeoutB]).success = false ∧
    (stopDockerServices [entryTimeoutB]).failed = ["b"] ∧
    (stopDockerServices [entryTimeoutB]).error =
      Option.some "Failed to stop services: b" ∧
    entryTimeoutB.resolvedName = "bc" ∧
    (stopDockerServices [entryTimeoutB]).failed ≠
      ([entryTimeoutB].filter fun e => (stopOneContainer e).isFailed).map
        ServiceEntry.resolvedName := by
  refine ⟨rfl, rfl, rfl, rfl, by decide⟩

/-- C7 amended: each container's outcome is tracked independently under
the escalation policy (check running, graceful stop, kill on stop
failure, remove, force-remove on removal failure, with any raised timeout
or exception aborting the escalation as a failure); the call fails
exactly when at least one container could not be stopped and removed; on
failure the error message enumerates one entry per failed container — the
resolved container name when a docker command fails, but the service key
when the container's processing raises — and the result still records
every container whose escalation succeeded. -/
theorem stop_services_failure_characterization (services : List ServiceEntry) :
    ((stopDockerServices services).success = false ↔
      ∃ e ∈ services, (stopOneContainer e).isFailed = true) ∧
    ((stopDockerServices services).success = false →
      (stopDockerServices services).error =
        Option.some ("Failed to stop services: " ++
          String.intercalate ", " (stopDockerServices services).failed)) ∧
    (stopDockerServices services).failed =
      (services.filter fun e => (stopOneContainer e).isFailed).map
        ServiceEntry.failedRecordName ∧
    (stopDockerServices services).stopped =
      (services.filter fun e => (stopOneContainer e).isStopped).map
        ServiceEntry.resolvedName := by
  unfold stopDockerServices
  by_cases h0 : services.isEmpty
  · rw [List.isEmpty_iff] at h0
    subst h0
    simp
  · rw [if_neg h0]
    by_cases h1 : (failedNames services).isEmpty
    · rw [if_pos h1]
      rw [List.isEmpty_iff, failedNames_eq_nil_iff] at h1
      refine ⟨?_, ?_, failedNames_eq services, stoppedNames_eq services⟩
      · constructor
        · intro h
          exact absurd h (by simp)
        · rintro ⟨e, hmem, hfail⟩
          exact absurd hfail (by simp [h1 e hmem])
      · intro h
        exact absurd h (by simp)
    · rw [if_neg h1]
      rw [List.isEmpty_iff] at h1
      refine ⟨?_, fun _ => rfl, failedNames_eq services,
        stoppedNames_eq services⟩
      constructor
      · intro _
        by_contra hnone
        push_neg at hnone
        refine h1 ((failedNames_eq_nil_iff services).mpr fun e hm => ?_)
        have h2 := hnone e hm
        simpa using h2
      · intro _
        rfl

/-- Witness for C7 amended at a concrete manifest holding one container
whose escalation commands fail and one whose processing raises. -/
theorem stop_services_failure_characterization_witness :
    ((stopDockerServices [entryFailB, entryTimeoutB]).success = false ↔
      ∃ e ∈ [entryFailB, entryTimeoutB],
        (stopOneContainer e).isFailed = true) ∧
    ((stopDockerServices [entryFailB, entryTimeoutB]).success = false →
      (stopDockerServices [entryFailB, entryTimeoutB]).error =
        Option.some ("Failed to stop services: " ++
          String.intercalate ", "
            (stopDockerServices [entryFailB, entryTimeoutB]).failed)) ∧
    (stopDockerServices [entryFailB, entryTimeoutB]).failed =
      ([entryFailB, entryTimeoutB].filter fun e =>
        (stopOneContainer e).isFailed).map ServiceEntry.failedRecordName ∧
    (stopDockerServices [entryFailB, entryTimeoutB]).stopped =
      ([entryFailB, entryTimeoutB].filter fun e =>
        (stopOneContainer e).isStopped).map ServiceEntry.resolvedName :=
  stop_services_failure_characterization [entryFailB, entryTimeoutB]

/-- C9: stopping is idempotent for absent containers: a container whose
completed checks show it neither running nor present is recorded in
neither list, and when no container of the manifest fails the overall
result is success with no error reported. (`raises = false` states that
the checks completed instead of raising — observing the container absent
presupposes it.) -/
theorem stop_absent_container_idempotent (services : List ServiceEntry)
    (e : ServiceEntry) (_hmem : e ∈ services)
    (hraises : e.env.raises = false)
    (hrun : e.env.running = false) (_hpres : e.env.presentStopped = false)
    (hothers : ∀ q ∈ services, (stopOneContainer q).isFailed = false) :
    stopOneContainer e = ContainerOutcome.skipped ∧
    (stopDockerServices services).success = true ∧
    (stopDockerServices services).error = Option.none := by
  have hskip : stopOneContainer e = ContainerOutcome.skipped := by
    unfold stopOneContainer
    simp [hraises, hrun]
  have hfail : failedNames services = [] :=
    (failedNames_eq_nil_iff services).mpr hothers
  refine ⟨hskip, ?_, ?_⟩ <;>
    · unfold stopDockerServices
      by_cases h0 : services.isEmpty
      · rw [if_pos h0]
      · rw [if_neg h0, if_pos (by simp [hfail])]

/-- Witness for C9 at a concrete manifest holding one absent container. -/
theorem stop_absent_container_idempotent_witness :
    entryAbsentA ∈ [entryAbsentA] ∧
    (stopOneContainer entryAbsentA = ContainerOutcome.skipped ∧
      (stopDockerServices [entryAbsentA]).success = true ∧
      (stopDockerServices [entryAbsentA]).error = Option.none) :=
  ⟨by decide,
   stop_absent_container_idempotent [entryAbsentA] entryAbsentA (by decide)
     (by decide) (by decide) (by decide) (by decide)⟩

theorem senderStep_perm (st : ClientState) (ok : Bool) :
    List.Perm ((senderStep st ok).2.toList ++ (senderStep st ok).1.queue)
      st.queue := by
  rcases st with ⟨run, conn, queue⟩
  cases run <;> cases conn <;> cases ok <;> cases queue <;>
    simp [senderStep, List.perm_append_singleton]

theorem reconnectStep_queue (st : ClientState) :
    (reconnectStep st).queue = st.queue := by
  unfold reconnectStep
  split_ifs <;> rfl

theorem senderRun_perm : ∀ (ins : List SenderInput) (st : ClientState),
    List.Perm ((senderRun st ins).2 ++ (senderRun st ins).1.queue) st.queue
  | [], st => by simp [senderRun]
  | SenderInput.attempt ok :: ins, st => by
      have h1 := senderStep_perm st ok
      have h2 := senderRun_perm ins (senderStep st ok).1
      simp only [senderRun]
      rcases hst : senderStep st ok with ⟨st1, sent⟩
      rw [hst] at h1 h2
      cases sent with
      | none =>
          simp only [Option.toList, List.nil_append] at h1
          exact h2.trans h1
      | some m =>
          simp only [Option.toList, List.singleton_append] at h1
          exact (List.cons_append m _ _ ▸ (h2.cons m)).trans h1
  | SenderInput.reconnect :: ins, st => by
      have h2 := senderRun_perm ins (reconnectStep st)
      simp only [senderRun]
      exact reconnectStep_queue st ▸ h2

/-- C4 counterexample: with queue `[m1, m2]` a failed send of `m1`
re-enqueues it at the back, yielding queue `[m2, m1]` rather than the
front-resubmitted `[m1, m2]`; after a reconnect the transport then accepts
`m2` before `m1`, so delivery order across the reconnect is not the FIFO
enqueue order. -/
theorem fifo_broken_by_requeue_at_back :
    (senderStep { running := true, connected := true, queue := ["m1", "m2"] }
      false).1.queue ≠ ["m1", "m2"] ∧
    (senderStep { running := true, connected := true, queue := ["m1", "m2"] }
      false).1.queue = ["m2", "m1"] ∧
    (senderRun { running := true, connected := true, queue := ["m1", "m2"] }
      [SenderInput.attempt false, SenderInput.reconnect,
       SenderInput.attempt true, SenderInput.attempt true]).2 =
      ["m2", "m1"] ∧
    (["m2", "m1"] : List String) ≠ ["m1", "m2"] := by
  refine ⟨by decide, rfl, rfl, by decide⟩

/-- C4 amended: on a transport-level close or error during send, the
in-flight message is not discarded but is resubmitted to the BACK of the
outbound queue (`Queue.put` appends) and the state is marked disconnected;
consequently, across any interleaving of send attempts and reconnects the
messages accepted by the transport together with the remaining queue are a
permutation of the originally queued messages, but the delivery order need
not remain the FIFO enqueue order once a send has failed. -/
theorem failed_send_requeues_at_back (st : ClientState) (m : String)
    (rest : List String) (ins : List SenderInput)
    (hr : st.running = true) (hc : st.connected = true)
    (hq : st.queue = m :: rest) :
    (senderStep st false).1.queue = rest ++ [m] ∧
    (senderStep st false).1.connected = false ∧
    (senderStep st false).2 = Option.none ∧
    List.Perm ((senderRun st ins).2 ++ (senderRun st ins).1.queue)
      st.queue := by
  refine ⟨?_, ?_, ?_, senderRun_perm ins st⟩ <;>
    · unfold senderStep
      rw [hq]
      simp [hr, hc]

/-- Witness for C4 amended at a concrete two-message queue. -/
theorem failed_send_requeues_at_back_witness :
    ({ running := true, connected := true,
       queue := ["a", "b"] } : ClientState).running = true ∧
    ((senderStep { running := true, connected := true, queue := ["a", "b"] }
        false).1.queue = ["b"] ++ ["a"] ∧
     (senderStep { running := true, connected := true, queue := ["a", "b"] }
        false).1.connected = false ∧
     (senderStep { running := true, connected := true, queue := ["a", "b"] }
        false).2 = Option.none ∧
     List.Perm
       ((senderRun { running := true, connected := true, queue := ["a", "b"] }
          [SenderInput.attempt true]).2 ++
        (senderRun { running := true, connected := true, queue := ["a", "b"] }
          [SenderInput.attempt true]).1.queue)
       ({ running := true, connected := true,
          queue := ["a", "b"] } : ClientState).queue) :=
  ⟨rfl,
   failed_send_requeues_at_back
     { running := true, connected := true, queue := ["a", "b"] } "a" ["b"]
     [SenderInput.attempt true] rfl rfl rfl⟩

/-- C5 counterexample: while the client is running but disconnected,
`send_message` does not enqueue the message: it is dropped with only a
logged warning. -/
theorem message_dropped_while_disconnected :
    ({ running := true, connected := false, queue := [] } : ClientState).running
      = true ∧
    (sendMessage { running := true, connected := false, queue := [] }
      "m1").queue = [] ∧
    "m1" ∉ (sendMessage { running := true, connected := false, queue := [] }
      "m1").queue := by
  refine ⟨rfl, rfl, by decide⟩

/-- C5 amended: a message passed to `send_message` is enqueued only when
the client is both running and connected (when disconnected it is dropped
with a warning); once enqueued it is retried across reconnects and never
lost by the loops — after any interleaving of send attempts and reconnects
it has either been accepted by the transport or is still queued — but
`stop()` discards all still-queued outbound messages without attempting
final delivery. -/
theorem send_message_enqueue_and_retention (st : ClientState) (m : String)
    (ins : List SenderInput) (hr : st.running = true)
    (hc : st.connected = true) :
    m ∈ (sendMessage st m).queue ∧
    (m ∈ (senderRun (sendMessage st m) ins).2 ∨
      m ∈ (senderRun (sendMessage st m) ins).1.queue) ∧
    (stopClient st).1.queue = [] ∧ (stopClient st).2 = [] := by
  have hq : (sendMessage st m).queue = st.queue ++ [m] := by
    unfold sendMessage
    simp [hr, hc]
  refine ⟨?_, ?_, rfl, rfl⟩
  · rw [hq]
    simp
  · have hperm := senderRun_perm ins (sendMessage st m)
    have hm : m ∈ (senderRun (sendMessage st m) ins).2 ++
        (senderRun (sendMessage st m) ins).1.queue := by
      rw [hperm.mem_iff, hq]
      simp
    exact List.mem_append.mp hm

/-- Witness for C5 amended at a concrete connected client. -/
theorem send_message_enqueue_and_retention_witness :
    ({ running := true, connected := true,
       queue := [] } : ClientState).running = true ∧
    ("p" ∈ (sendMessage { running := true, connected := true, queue := [] }
        "p").queue ∧
     ("p" ∈ (senderRun
          (sendMessage { running := true, connected := true, queue := [] } "p")
          [SenderInput.attempt true]).2 ∨
       "p" ∈ (senderRun
          (sendMessage { running := true, connected := true, queue := [] } "p")
          [SenderInput.attempt true]).1.queue) ∧
     (stopClient { running := true, connected := true, queue := [] }).1.queue
        = [] ∧
     (stopClient { running := true, connected := true, queue := [] }).2
        = []) :=
  ⟨rfl,
   send_message_enqueue_and_retention
     { running := true, connected := true, queue := [] } "p"
     [SenderInput.attempt true] rfl rfl⟩

theorem chain_to_chain_of_tail {α : Type} {R : α → α → Prop} {a : α}
    {l : List α} (h : List.Chain R a l) : List.Chain' R l := by
  cases h with
  | nil => trivial
  | cons _ h2 => exact h2

theorem setAdd_length_le (l : List String) (x : String) :
    l.length ≤ (setAdd l x).length := by
  unfold setAdd
  split_ifs <;> simp

theorem pullStep_pulled (st : PullState) (l : PullLine) :
    (pullStep st l).1.servicesPulled = st.servicesPulled := by
  cases l <;> rfl

theorem pullStep_bounds (st : PullState) (l : PullLine)
    (h : st.servicesPulled = []) (e : String × Nat)
    (he : (pullStep st l).2 = Option.some e) : 30 ≤ e.2 ∧ e.2 ≤ 70 := by
  cases l with
  | pulling s =>
      simp only [pullStep, Option.some.injEq] at he
      subst he
      simp [h]
  | pullComplete layer =>
      simp only [pullStep, Option.some.injEq] at he
      subst he
      refine ⟨by simp, ?_⟩
      have hmin : min ((setAdd st.completedLayers layer).length * 5) 40 ≤ 40 :=
        Nat.min_le_right _ _
      omega
  | downloading layer cur tot =>
      simp only [pullStep, Option.some.injEq] at he
      subst he
      simp [h]
  | extracting layer =>
      simp only [pullStep, Option.some.injEq] at he
      subst he
      simp [h]
  | other =>
      simp [pullStep] at he

theorem pullRunFrom_bounds (lines : List PullLine) : ∀ (st : PullState),
    st.servicesPulled = [] →
    ∀ e ∈ pullRunFrom st lines, 30 ≤ e.2 ∧ e.2 ≤ 70 := by
  induction lines with
  | nil =>
      intro st _ e he
      simp [pullRunFrom] at he
  | cons l ls ih =>
      intro st h e he
      simp only [pullRunFrom] at he
      rcases hst : pullStep st l with ⟨st1, ev⟩
      rw [hst] at he
      have h1 : st1.servicesPulled = [] := by
        have hp := pullStep_pulled st l
        rw [hst] at hp
        exact hp.trans h
      cases ev with
      | none => exact ih st1 h1 e he
      | some e0 =>
          rcases List.mem_cons.mp he with he0 | hrest
          · subst he0
            exact pullStep_bounds st l h e (by rw [hst])
          · exact ih st1 h1 e hrest

theorem pullRunFrom_layer_chain (lines : List PullLine) : ∀ (st : PullState),
    List.Chain (· ≤ ·) (30 + min (st.completedLayers.length * 5) 40)
      (((pullRunFrom st lines).filter fun e =>
        e.1 == "layer_complete").map Prod.snd) := by
  induction lines with
  | nil =>
      intro st
      simp only [pullRunFrom, List.filter_nil, List.map_nil]
      exact List.Chain.nil
  | cons l ls ih =>
      intro st
      cases l with
      | pulling s =>
          simp only [pullRunFrom, pullStep]
          rw [List.filter_cons_of_neg (by simp)]
          exact ih { st with servicesFound := setAdd st.servicesFound s,
                             currentService := Option.some s }
      | pullComplete layer =>
          simp only [pullRunFrom, pullStep]
          rw [List.filter_cons_of_pos (by simp), List.map_cons]
          refine List.Chain.cons ?_
            (ih { st with completedLayers := setAdd st.completedLayers layer })
          have hlen := setAdd_length_le st.completedLayers layer
          have hmin : min (st.completedLayers.length * 5) 40 ≤
              min ((setAdd st.completedLayers layer).length * 5) 40 := by
            have := Nat.mul_le_mul_right 5 hlen
            omega
          omega
      | downloading layer cur tot =>
          simp only [pullRunFrom, pullStep]
          rw [List.filter_cons_of_neg (by simp)]
          exact ih st
      | extracting layer =>
          simp only [pullRunFrom, pullStep]
          rw [List.filter_cons_of_neg (by simp)]
          exact ih st
      | other =>
          simp only [pullRunFrom, pullStep]
          exact ih st

/-- C6 counterexample: after eight distinct `Pull complete` lines the
emitted percent reaches exactly 70, leaving the half-open band `[30, 70)`,
and the following `Pulling web` line emits percent 30, so the emitted
sequence `35, 40, 45, 50, 55, 60, 65, 70, 30` is not monotonically
non-decreasing either. -/
theorem pull_percent_leaves_band_and_decreases :
    (pullRun pullTrace8).map Prod.snd =
      [35, 40, 45, 50, 55, 60, 65, 70, 30] ∧
    ¬(∀ e ∈ pullRun pullTrace8, 30 ≤ e.2 ∧ e.2 < 70) ∧
    ¬List.Chain' (· ≤ ·) ((pullRun pullTrace8).map Prod.snd) := by
  refine ⟨by decide, ?_, ?_⟩
  · intro hband
    have hmem : ("layer_complete", 70) ∈ pullRun pullTrace8 := by decide
    have h70 := (hband _ hmem).2
    omega
  · intro hchain
    rw [show (pullRun pullTrace8).map Prod.snd =
      [35, 40, 45, 50, 55, 60, 65, 70, 30] from by decide] at hchain
    simp only [List.chain'_cons] at hchain
    omega

/-- C6 amended: every percent emitted during the image-pull stage lies in
the closed band `[30, 70]`, and the subsequence of percents emitted for
layer-completion events is monotonically non-decreasing; percents of
different event kinds, however, are fixed bases (30 for `Pulling`, 35 for
`Downloading`, 50 for `Extracting`), so the overall sequence can decrease
across kinds and can reach exactly 70. -/
theorem pull_percent_band_and_layer_monotone (lines : List PullLine) :
    (∀ e ∈ pullRun lines, 30 ≤ e.2 ∧ e.2 ≤ 70) ∧
    List.Chain' (· ≤ ·)
      (((pullRun lines).filter fun e =>
        e.1 == "layer_complete").map Prod.snd) :=
  ⟨pullRunFrom_bounds lines initPullState rfl,
   chain_to_chain_of_tail (pullRunFrom_layer_chain lines initPullState)⟩

/-- Witness for C6 amended at a concrete line trace. -/
theorem pull_percent_band_and_layer_monotone_witness :
    (∀ e ∈ pullRun [PullLine.pullComplete "abc", PullLine.extracting "abc"],
      30 ≤ e.2 ∧ e.2 ≤ 70) ∧
    List.Chain' (· ≤ ·)
      (((pullRun [PullLine.pullComplete "abc",
          PullLine.extracting "abc"]).filter fun e =>
        e.1 == "layer_complete").map Prod.snd) :=
  pull_percent_band_and_layer_monotone
    [PullLine.pullComplete "abc", PullLine.extracting "abc"]

end OrinOTA
